import Mathlib

/-!
# RTC driver of the KL03 low-power demo (`kl03_lowpower/src/drivers/rtc/rtc.c`)

The driver is straight-line register code.  It is embedded as state
transformers on a record `Machine` holding the memory-mapped registers the
driver touches, the interrupt-controller enable bits, the driver's static
`m_bAlarmFlag`, the stream of console / LED calls, and a record of the writes
made to the seconds, alarm and compensation registers (each with the value of
the counter-enable bit at the moment of the write).

Registers are `Nat`s; C's 32-bit arithmetic is made explicit (`% 2 ^ 32`,
complement by `not32`).  The counter's own ticking (real time) is outside the
model: registers change through the driver's writes and through the
peripheral reactions the driver's comments rely on.
-/

namespace KL03

/-! ## Constants of the device header -/

/-- Modelled from the spec: status-register bit masks of the device header
`MKL03Z4.h`, which is not among the sources (spec §6: "status register
(time-invalid, overflow, alarm-fired, counter-enable bits)").  `rtc_isr`
compares `RTC_SR & RTC_SR_TIF_MASK` with the literal `0x01`, which fixes bit 0. -/
def RTC_SR_TIF_MASK : Nat := 0x1

/-- Modelled from the spec: overflow flag of `MKL03Z4.h` (not among the
sources); `rtc_isr` compares the masked status with the literal `0x02`. -/
def RTC_SR_TOF_MASK : Nat := 0x2

/-- Modelled from the spec: alarm flag of `MKL03Z4.h` (not among the sources);
`rtc_isr` compares the masked status with the literal `0x04`. -/
def RTC_SR_TAF_MASK : Nat := 0x4

/-- Modelled from the spec: counter-enable bit of `MKL03Z4.h` (not among the
sources).  It lies outside the flag bits `0x07`, which is why `rtc_isr` clears
it with `RTC_SR &= 0x07`; the header puts it at bit 4. -/
def RTC_SR_TCE_MASK : Nat := 0x10

/-- Modelled from the spec: alarm-interrupt-enable bit of the interrupt-enable
register, from `MKL03Z4.h` (not among the sources). -/
def RTC_IER_TAIE_MASK : Nat := 0x4

/-- Modelled from the spec: seconds-interrupt-enable bit of the
interrupt-enable register, from `MKL03Z4.h` (not among the sources). -/
def RTC_IER_TSIE_MASK : Nat := 0x10

/-- Modelled from the spec: software-reset bit of the control register, from
`MKL03Z4.h` (not among the sources). -/
def RTC_CR_SWR_MASK : Nat := 0x1

/-- Modelled from the spec: oscillator-enable bit of the control register,
from `MKL03Z4.h` (not among the sources). -/
def RTC_CR_OSCE_MASK : Nat := 0x100

/-- Modelled from the spec: 16 pF load-capacitance trim bit of the control
register, from `MKL03Z4.h` (not among the sources). -/
def RTC_CR_SC16P_MASK : Nat := 0x400

/-- Modelled from the spec: RTC clock-gate bit of `SIM_SCGC6`, from
`MKL03Z4.h` (not among the sources). -/
def SIM_SCGC6_RTC_MASK : Nat := 0x20000000

/-- Modelled from the spec: field macro `SIM_SOPT1_OSC32KSEL(x)` of
`MKL03Z4.h` (not among the sources): shift into bits 18..19. -/
def SIM_SOPT1_OSC32KSEL (x : Nat) : Nat := (x <<< 18) &&& 0xC0000

/-- Modelled from the spec: field macro `RTC_TCR_CIR(x)` of `MKL03Z4.h` (not
among the sources): the compensation interval occupies bits 8..15. -/
def RTC_TCR_CIR (x : Nat) : Nat := (x <<< 8) &&& 0xFF00

/-- Modelled from the spec: field macro `RTC_TCR_TCR(x)` of `MKL03Z4.h` (not
among the sources): the compensation value occupies bits 0..7. -/
def RTC_TCR_TCR (x : Nat) : Nat := x &&& 0xFF

/-- Bitwise complement of a 32-bit mask (C's `~m` on `uint32_t`). -/
def not32 (m : Nat) : Nat := 0xFFFFFFFF ^^^ m

/-! ## State -/

/-- The configuration registers whose writes are recorded. -/
inductive Reg
  | TSR
  | TAR
  | TCR
deriving DecidableEq

/-- One write to a configuration register: which register, the value written,
and whether counter-enable was set in `RTC_SR` when the write was issued. -/
structure RegWrite where
  reg : Reg
  value : Nat
  tce : Bool
deriving DecidableEq

/-- Calls made to the console and LED collaborators. -/
inductive OutEv
  | out_char (c : Nat)
  | printf (fmt : String) (args : List Nat)
  | LED1_TOGGLE
  | LED2_TOGGLE
deriving DecidableEq

/-- Everything the driver reads or writes. -/
structure Machine where
  SIM_SCGC6 : Nat
  SIM_SOPT1 : Nat
  RTC_TSR : Nat
  RTC_TPR : Nat
  RTC_TAR : Nat
  RTC_TCR : Nat
  RTC_CR : Nat
  RTC_SR : Nat
  RTC_LR : Nat
  RTC_IER : Nat
  /-- interrupt lines currently enabled in the interrupt controller -/
  irq_enabled : Nat → Bool
  /-- the driver's `static uint8_t m_bAlarmFlag` -/
  m_bAlarmFlag : Nat
  /-- console and LED calls, oldest first -/
  emitted : List OutEv
  /-- writes to `RTC_TSR`, `RTC_TAR`, `RTC_TCR`, oldest first -/
  writes : List RegWrite

/-- Counter-enable bit of the status register, as a boolean. -/
def tce (s : Machine) : Bool := decide (s.RTC_SR &&& RTC_SR_TCE_MASK ≠ 0)

/-! ## Collaborators that are not among the sources -/

/-- Modelled from the spec: `enable_irq` of `arm_cm0.c`, which is not among
the sources.  Spec §6: "Interrupt controller: `enable(lineNumber)` /
`disable(lineNumber)`"; the line becomes enabled, the others are untouched. -/
def enable_irq (irq : Nat) (s : Machine) : Machine :=
  { s with irq_enabled := fun n => if n = irq then true else s.irq_enabled n }

/-- Modelled from the spec: `disable_irq` of `arm_cm0.c`, which is not among
the sources.  Spec §6: "Interrupt controller: `enable(lineNumber)` /
`disable(lineNumber)`"; the line becomes disabled, the others are untouched. -/
def disable_irq (irq : Nat) (s : Machine) : Machine :=
  { s with irq_enabled := fun n => if n = irq then false else s.irq_enabled n }

/-- Console collaborator `out_char` (declared in `io.h`): recorded as a call. -/
def out_char (c : Nat) (s : Machine) : Machine :=
  { s with emitted := s.emitted ++ [OutEv.out_char c] }

/-- Console collaborator `printf`: recorded as a call with its format string
and the values of its arguments. -/
def printf (fmt : String) (args : List Nat) (s : Machine) : Machine :=
  { s with emitted := s.emitted ++ [OutEv.printf fmt args] }

/-- Board macro `LED1_TOGGLE()`: recorded as a call. -/
def LED1_TOGGLE (s : Machine) : Machine :=
  { s with emitted := s.emitted ++ [OutEv.LED1_TOGGLE] }

/-- Board macro `LED2_TOGGLE()`: recorded as a call. -/
def LED2_TOGGLE (s : Machine) : Machine :=
  { s with emitted := s.emitted ++ [OutEv.LED2_TOGGLE] }

/-! ## Register writes and the peripheral's reactions to them

Only the reactions the driver's own comments rely on are modelled:

* `rtc_init`: "you must manually reset the SRTC to make sure everything is in
  a known state" (software-reset bit of `RTC_CR`);
* `rtc_init`: `RTC_TSR = 0x00000000; // this action clears the TIF`;
* `rtc_isr`: `RTC_SR &= 0x07; //clear TCE, or RTC_TSR can  not be written`;
* `rtc_isr`: `RTC_TSR = 0x00000000; //clear TIF` and `//clear TOF`.
-/

/-- The "known state" a software reset forces: every RTC register at its
reset value (seconds, prescaler, alarm and compensation zero; status = time
invalid only, so the counter is disabled; lock `0xFF`; interrupt enables
`0x07`), with the software-reset bit itself still set in `RTC_CR`. -/
def software_reset (s : Machine) : Machine :=
  { s with
    RTC_TSR := 0, RTC_TPR := 0, RTC_TAR := 0, RTC_TCR := 0,
    RTC_CR := RTC_CR_SWR_MASK, RTC_SR := RTC_SR_TIF_MASK,
    RTC_LR := 0xFF, RTC_IER := 0x7 }

/-- A write to `RTC_CR`: with the software-reset bit set it resets the
peripheral, otherwise it stores the value. -/
def write_RTC_CR (v : Nat) (s : Machine) : Machine :=
  if v &&& RTC_CR_SWR_MASK ≠ 0 then software_reset s else { s with RTC_CR := v }

/-- A write to `RTC_SR`.  The driver only writes back what it read with the
counter-enable bit changed, so the flag bits are stored as they were. -/
def write_RTC_SR (v : Nat) (s : Machine) : Machine :=
  { s with RTC_SR := v }

/-- A write to `RTC_IER`. -/
def write_RTC_IER (v : Nat) (s : Machine) : Machine :=
  { s with RTC_IER := v }

/-- A write to `RTC_TSR`.  While counter-enable is set the register cannot be
written (comment in `rtc_isr`) and the write is lost; with the counter
disabled the value is stored and the time-invalid and overflow flags are
cleared (comments in `rtc_init` and `rtc_isr`).  The attempt is recorded
either way. -/
def write_RTC_TSR (v : Nat) (s : Machine) : Machine :=
  let s1 := { s with writes := s.writes ++ [⟨Reg.TSR, v, tce s⟩] }
  if s.RTC_SR &&& RTC_SR_TCE_MASK ≠ 0 then s1
  else { s1 with
         RTC_TSR := v,
         RTC_SR := s.RTC_SR &&& not32 (RTC_SR_TIF_MASK ||| RTC_SR_TOF_MASK) }

/-- A write to `RTC_TAR`: stored and recorded. -/
def write_RTC_TAR (v : Nat) (s : Machine) : Machine :=
  { s with RTC_TAR := v, writes := s.writes ++ [⟨Reg.TAR, v, tce s⟩] }

/-- A write to `RTC_TCR`: stored and recorded. -/
def write_RTC_TCR (v : Nat) (s : Machine) : Machine :=
  { s with RTC_TCR := v, writes := s.writes ++ [⟨Reg.TCR, v, tce s⟩] }

/-! ## The driver -/

/-- The busy-wait of `rtc_init`, `for (i = 0; i < n; i++);`, started at `i`:
the body is empty, the function returns the value of `i` at exit. -/
def busy_wait (n i : Nat) : Nat :=
  if i < n then busy_wait n (i + 1) else i
termination_by n - i

/-- `rtc_init(seconds, alarm, c_interval, c_value, interrupt)`.  The arguments
are `uint32`, `uint32`, `uint8`, `uint8`, `uint8`; `interrupt + 1` is computed
in `int` and does not wrap.  The busy-wait loop only advances its local
counter `i`. -/
def rtc_init (seconds alarm c_interval c_value interrupt : Nat) (s : Machine) : Machine :=
  let seconds := seconds % 2 ^ 32
  let alarm := alarm % 2 ^ 32
  let c_interval := c_interval % 2 ^ 8
  let c_value := c_value % 2 ^ 8
  let interrupt := interrupt % 2 ^ 8
  let s := { s with SIM_SCGC6 := s.SIM_SCGC6 ||| SIM_SCGC6_RTC_MASK }
  let s := { s with SIM_SOPT1 := SIM_SOPT1_OSC32KSEL 0 }
  let s := disable_irq interrupt s
  let s := disable_irq (interrupt + 1) s
  let s := write_RTC_CR RTC_CR_SWR_MASK s
  let s := write_RTC_CR (s.RTC_CR &&& not32 RTC_CR_SWR_MASK) s
  let s := if s.RTC_SR &&& RTC_SR_TIF_MASK ≠ 0 then write_RTC_TSR 0x00000000 s else s
  let s := write_RTC_TCR (RTC_TCR_CIR c_interval ||| RTC_TCR_TCR c_value) s
  let s :=
    if seconds > 0 then
      let s := if interrupt > 1 then enable_irq (interrupt + 1) s else s
      let s := write_RTC_IER (s.RTC_IER ||| RTC_IER_TSIE_MASK) s
      let s := write_RTC_SR (s.RTC_SR ||| RTC_SR_TCE_MASK) s
      write_RTC_TSR seconds s
    else
      write_RTC_IER (s.RTC_IER &&& not32 RTC_IER_TSIE_MASK) s
  let s :=
    if alarm > 0 then
      let s := write_RTC_IER (s.RTC_IER ||| RTC_IER_TAIE_MASK) s
      let s := write_RTC_SR (s.RTC_SR ||| RTC_SR_TCE_MASK) s
      let s := write_RTC_TAR alarm s
      if interrupt > 1 then enable_irq interrupt s else s
    else
      write_RTC_IER (s.RTC_IER &&& not32 RTC_IER_TAIE_MASK) s
  let s := write_RTC_CR (s.RTC_CR ||| (RTC_CR_OSCE_MASK ||| RTC_CR_SC16P_MASK)) s
  let _i := busy_wait 0x600000 0
  write_RTC_SR (s.RTC_SR ||| RTC_SR_TCE_MASK) s

/-- `rtc_isr`: the three status flags are tested one after the other. -/
def rtc_isr (s : Machine) : Machine :=
  let s :=
    if s.RTC_SR &&& RTC_SR_TIF_MASK = 0x01 then
      let s := write_RTC_SR (s.RTC_SR &&& 0x07) s
      write_RTC_TSR 0x00000000 s
    else s
  let s :=
    if s.RTC_SR &&& RTC_SR_TOF_MASK = 0x02 then
      let s := write_RTC_SR (s.RTC_SR &&& 0x07) s
      write_RTC_TSR 0x00000000 s
    else s
  if s.RTC_SR &&& RTC_SR_TAF_MASK = 0x04 then
    let s := { s with m_bAlarmFlag := 1 }
    let s := write_RTC_TAR ((s.RTC_TAR + 3) % 2 ^ 32) s
    LED2_TOGGLE s
  else s

/-- `rtc_second_isr`: prints the time, then the alarm marker or the padding. -/
def rtc_second_isr (s : Machine) : Machine :=
  let s := out_char 0x08 s
  let s := printf "Current Time:" [] s
  let s := printf "  %d" [s.RTC_TSR] s
  let s :=
    if s.m_bAlarmFlag ≠ 0 then
      let s := printf " *alarm!* " [] s
      { s with m_bAlarmFlag := 0 }
    else
      printf "          " [] s
  let s := printf "\r" [] s
  LED1_TOGGLE s

/-- `rtc_reset`. -/
def rtc_reset (s : Machine) : Machine :=
  let s := { s with SIM_SCGC6 := s.SIM_SCGC6 ||| SIM_SCGC6_RTC_MASK }
  let s := disable_irq 20 s
  let s := disable_irq 21 s
  let s := write_RTC_CR RTC_CR_SWR_MASK s
  write_RTC_CR (s.RTC_CR &&& not32 RTC_CR_SWR_MASK) s

/-- `rtc_updated_timer`: the current value of the seconds register. -/
def rtc_updated_timer (s : Machine) : Nat := s.RTC_TSR

/-- The calls a handler `f` adds to the console / LED stream when run from `s`. -/
def emittedBy (f : Machine → Machine) (s : Machine) : List OutEv :=
  (f s).emitted.drop s.emitted.length

/-- A power-on style state used for concrete evaluations: all registers zero,
no interrupt line enabled, nothing emitted. -/
def zeroMachine : Machine :=
  { SIM_SCGC6 := 0, SIM_SOPT1 := 0, RTC_TSR := 0, RTC_TPR := 0, RTC_TAR := 0,
    RTC_TCR := 0, RTC_CR := 0, RTC_SR := 0, RTC_LR := 0, RTC_IER := 0,
    irq_enabled := fun _ => false, m_bAlarmFlag := 0, emitted := [], writes := [] }

/-- A running clock on which the time-invalid flag has come up: status =
time-invalid + counter-enable, seconds register non-zero. -/
def invalidTimeMachine : Machine :=
  { zeroMachine with RTC_SR := 0x11, RTC_TSR := 1234 }

/-- A running clock whose alarm has fired together with an overflow: status =
overflow + alarm + counter-enable, alarm register at the top of its range. -/
def alarmFiredMachine : Machine :=
  { zeroMachine with RTC_SR := 0x16, RTC_TAR := 0xFFFFFFFE, RTC_TSR := 77 }

/-- A state in which an alarm has been flagged by `rtc_isr` and not yet
reported, with both RTC interrupt lines enabled. -/
def alarmPendingMachine : Machine :=
  { zeroMachine with m_bAlarmFlag := 1, RTC_TSR := 42, RTC_SR := 0x10,
                     irq_enabled := fun n => decide (n = 20 ∨ n = 21) }

/-! ## Bit-mask facts -/

theorem and_and_of_disjoint (x : Nat) {a b : Nat} (h : a &&& b = 0) :
    (x &&& a) &&& b = 0 := by
  rw [Nat.and_assoc, h, Nat.and_zero]

theorem and_and_of_subset (x : Nat) {a b : Nat} (h : a &&& b = b) :
    (x &&& a) &&& b = x &&& b := by
  rw [Nat.and_assoc, h]

theorem or_and_of_disjoint (x : Nat) {a b : Nat} (h : a &&& b = 0) :
    (x ||| a) &&& b = x &&& b := by
  rw [Nat.and_distrib_right, h, Nat.or_zero]

theorem or_and_mask (x m : Nat) : (x ||| m) &&& m = m := by
  apply Nat.eq_of_testBit_eq
  intro i
  simp
  exact fun h => Or.inr h

theorem and_two_pow_eq (x k : Nat) :
    x &&& 2 ^ k = if x.testBit k then 2 ^ k else 0 := by
  apply Nat.eq_of_testBit_eq
  intro i
  by_cases hx : x.testBit k
  · simp [hx, Nat.testBit_two_pow]
    intro h; subst h; exact hx
  · simp [hx, Nat.testBit_two_pow]
    intro h1 h2; subst h2; simp_all

/-- A status word with the time-invalid bit set masks to exactly `0x01`. -/
theorem tif_set_iff (x : Nat) : x &&& RTC_SR_TIF_MASK ≠ 0 ↔ x &&& RTC_SR_TIF_MASK = 0x01 := by
  have h := and_two_pow_eq x 0
  simp only [pow_zero] at h
  simp only [RTC_SR_TIF_MASK, h]
  split_ifs <;> simp

/-- A status word with the overflow bit set masks to exactly `0x02`. -/
theorem tof_set_iff (x : Nat) : x &&& RTC_SR_TOF_MASK ≠ 0 ↔ x &&& RTC_SR_TOF_MASK = 0x02 := by
  have h := and_two_pow_eq x 1
  simp only [pow_one] at h
  simp only [RTC_SR_TOF_MASK, h]
  split_ifs <;> simp

/-- A status word with the alarm bit set masks to exactly `0x04`. -/
theorem taf_set_iff (x : Nat) : x &&& RTC_SR_TAF_MASK ≠ 0 ↔ x &&& RTC_SR_TAF_MASK = 0x04 := by
  have h := and_two_pow_eq x 2
  norm_num at h
  simp only [RTC_SR_TAF_MASK, h]
  split_ifs <;> simp

/-! ## Lemmas on `rtc_init` -/

/-- The busy-wait loop terminates with its counter at the bound. -/
theorem busy_wait_exit (n i : Nat) (h : i ≤ n) : busy_wait n i = n := by
  obtain ⟨k, hk⟩ : ∃ k, n - i = k := ⟨_, rfl⟩
  induction k generalizing i with
  | zero =>
    have hi : i = n := by omega
    subst hi
    rw [busy_wait]
    simp
  | succ m ih =>
    rw [busy_wait]
    have hlt : i < n := by omega
    rw [if_pos hlt]
    exact ih (i + 1) (by omega) (by omega)

/-- After `rtc_init` the seconds register holds its reset value: the only
write that could change it afterwards is issued with the counter enabled. -/
theorem rtc_init_RTC_TSR (seconds alarm c_interval c_value interrupt : Nat) (s : Machine) :
    (rtc_init seconds alarm c_interval c_value interrupt s).RTC_TSR = 0 := by
  by_cases h1 : seconds % 2 ^ 32 > 0 <;> by_cases h2 : alarm % 2 ^ 32 > 0 <;>
    by_cases h3 : interrupt % 2 ^ 8 > 1 <;>
  simp only [rtc_init, h1, h2, h3, if_true, if_false] <;>
  simp [write_RTC_CR, write_RTC_TCR, write_RTC_TSR, software_reset, RTC_CR_SWR_MASK,
    RTC_SR_TIF_MASK, not32, tce, RTC_SR_TCE_MASK, RTC_SR_TOF_MASK, disable_irq, enable_irq,
    write_RTC_IER, write_RTC_SR, write_RTC_TAR, RTC_CR_OSCE_MASK, RTC_CR_SC16P_MASK,
    RTC_IER_TSIE_MASK, RTC_IER_TAIE_MASK]

/-- After `rtc_init` the status register is exactly the counter-enable bit. -/
theorem rtc_init_RTC_SR (seconds alarm c_interval c_value interrupt : Nat) (s : Machine) :
    (rtc_init seconds alarm c_interval c_value interrupt s).RTC_SR = RTC_SR_TCE_MASK := by
  by_cases h1 : seconds % 2 ^ 32 > 0 <;> by_cases h2 : alarm % 2 ^ 32 > 0 <;>
    by_cases h3 : interrupt % 2 ^ 8 > 1 <;>
  simp only [rtc_init, h1, h2, h3, if_true, if_false] <;>
  simp [write_RTC_CR, write_RTC_TCR, write_RTC_TSR, software_reset, RTC_CR_SWR_MASK,
    RTC_SR_TIF_MASK, not32, tce, RTC_SR_TCE_MASK, RTC_SR_TOF_MASK, disable_irq, enable_irq,
    write_RTC_IER, write_RTC_SR, write_RTC_TAR, RTC_CR_OSCE_MASK, RTC_CR_SC16P_MASK,
    RTC_IER_TSIE_MASK, RTC_IER_TAIE_MASK]

/-- After `rtc_init` the alarm register holds the alarm argument when it is
positive, and its reset value otherwise. -/
theorem rtc_init_RTC_TAR (seconds alarm c_interval c_value interrupt : Nat) (s : Machine) :
    (rtc_init seconds alarm c_interval c_value interrupt s).RTC_TAR =
      if alarm % 2 ^ 32 > 0 then alarm % 2 ^ 32 else 0 := by
  by_cases h1 : seconds % 2 ^ 32 > 0 <;> by_cases h2 : alarm % 2 ^ 32 > 0 <;>
    by_cases h3 : interrupt % 2 ^ 8 > 1 <;>
  simp only [rtc_init, h1, h2, h3, if_true, if_false] <;>
  simp [write_RTC_CR, write_RTC_TCR, write_RTC_TSR, software_reset, RTC_CR_SWR_MASK,
    RTC_SR_TIF_MASK, not32, tce, RTC_SR_TCE_MASK, RTC_SR_TOF_MASK, disable_irq, enable_irq,
    write_RTC_IER, write_RTC_SR, write_RTC_TAR, RTC_CR_OSCE_MASK, RTC_CR_SC16P_MASK,
    RTC_IER_TSIE_MASK, RTC_IER_TAIE_MASK]

/-- The alarm-interrupt-enable bit after `rtc_init` follows the test
`alarm > 0` and nothing else. -/
theorem rtc_init_TAIE (seconds alarm c_interval c_value interrupt : Nat) (s : Machine) :
    (rtc_init seconds alarm c_interval c_value interrupt s).RTC_IER &&& RTC_IER_TAIE_MASK =
      if alarm % 2 ^ 32 > 0 then RTC_IER_TAIE_MASK else 0 := by
  by_cases h1 : seconds % 2 ^ 32 > 0 <;> by_cases h2 : alarm % 2 ^ 32 > 0 <;>
    by_cases h3 : interrupt % 2 ^ 8 > 1 <;>
  simp only [rtc_init, h1, h2, h3, if_true, if_false] <;>
  simp [write_RTC_CR, write_RTC_TCR, write_RTC_TSR, software_reset, RTC_CR_SWR_MASK,
    RTC_SR_TIF_MASK, not32, tce, RTC_SR_TCE_MASK, RTC_SR_TOF_MASK, disable_irq, enable_irq,
    write_RTC_IER, write_RTC_SR, write_RTC_TAR, RTC_CR_OSCE_MASK, RTC_CR_SC16P_MASK,
    RTC_IER_TSIE_MASK, RTC_IER_TAIE_MASK] <;>
  decide

/-- The interrupt lines after `rtc_init`: both lines are disabled first, then
the seconds line and the alarm line are enabled again under the guards of the
two branches. -/
theorem rtc_init_irq_enabled (seconds alarm c_interval c_value interrupt : Nat) (s : Machine) :
    (rtc_init seconds alarm c_interval c_value interrupt s).irq_enabled =
      Machine.irq_enabled
        ((if alarm % 2 ^ 32 > 0 ∧ interrupt % 2 ^ 8 > 1 then enable_irq (interrupt % 2 ^ 8) else id)
        ((if seconds % 2 ^ 32 > 0 ∧ interrupt % 2 ^ 8 > 1 then
            enable_irq (interrupt % 2 ^ 8 + 1) else id)
          (disable_irq (interrupt % 2 ^ 8 + 1) (disable_irq (interrupt % 2 ^ 8) s)))) := by
  by_cases h1 : seconds % 2 ^ 32 > 0 <;> by_cases h2 : alarm % 2 ^ 32 > 0 <;>
    by_cases h3 : interrupt % 2 ^ 8 > 1 <;>
  simp only [rtc_init, h1, h2, h3, if_true, if_false, and_self, and_true, and_false, id] <;>
  simp [write_RTC_CR, write_RTC_TCR, write_RTC_TSR, software_reset, RTC_CR_SWR_MASK,
    RTC_SR_TIF_MASK, not32, tce, RTC_SR_TCE_MASK, RTC_SR_TOF_MASK, disable_irq, enable_irq,
    write_RTC_IER, write_RTC_SR, write_RTC_TAR, RTC_CR_OSCE_MASK, RTC_CR_SC16P_MASK,
    RTC_IER_TSIE_MASK, RTC_IER_TAIE_MASK]

/-- The writes `rtc_init` issues to the seconds, alarm and compensation
registers, in order, each with the counter-enable bit seen at that moment. -/
theorem rtc_init_writes (seconds alarm c_interval c_value interrupt : Nat) (s : Machine) :
    (rtc_init seconds alarm c_interval c_value interrupt s).writes =
      s.writes ++
        ([⟨Reg.TSR, 0, false⟩,
          ⟨Reg.TCR, RTC_TCR_CIR (c_interval % 2 ^ 8) ||| RTC_TCR_TCR (c_value % 2 ^ 8), false⟩] ++
         (if seconds % 2 ^ 32 > 0 then [⟨Reg.TSR, seconds % 2 ^ 32, true⟩] else []) ++
         (if alarm % 2 ^ 32 > 0 then [⟨Reg.TAR, alarm % 2 ^ 32, true⟩] else [])) := by
  by_cases h1 : seconds % 2 ^ 32 > 0 <;> by_cases h2 : alarm % 2 ^ 32 > 0 <;>
    by_cases h3 : interrupt % 2 ^ 8 > 1 <;>
  simp only [rtc_init, h1, h2, h3, if_true, if_false] <;>
  simp [write_RTC_CR, write_RTC_TCR, write_RTC_TSR, software_reset, RTC_CR_SWR_MASK,
    RTC_SR_TIF_MASK, not32, tce, RTC_SR_TCE_MASK, RTC_SR_TOF_MASK, disable_irq, enable_irq,
    write_RTC_IER, write_RTC_SR, write_RTC_TAR, RTC_CR_OSCE_MASK, RTC_CR_SC16P_MASK,
    RTC_IER_TSIE_MASK, RTC_IER_TAIE_MASK]

/-! ## Lemmas on `rtc_isr` -/

/-- The clear sequence of `rtc_isr` (`RTC_SR &= 0x07; RTC_TSR = 0`): the
counter is disabled first, so the write is accepted; it zeroes the seconds
register and leaves of the status word only the alarm flag. -/
theorem clear_sequence_eq (s : Machine) :
    write_RTC_TSR 0x00000000 (write_RTC_SR (s.RTC_SR &&& 0x07) s) =
      { s with RTC_TSR := 0, RTC_SR := s.RTC_SR &&& 0x04,
               writes := s.writes ++ [⟨Reg.TSR, 0, false⟩] } := by
  have h16 : s.RTC_SR &&& 7 &&& 16 = 0 := and_and_of_disjoint _ (by decide)
  have h4 : s.RTC_SR &&& 7 &&& 4294967292 = s.RTC_SR &&& 4 := by
    rw [Nat.and_assoc]
    have h : (7 : Nat) &&& 4294967292 = 4 := by decide
    rw [h]
  simp [write_RTC_TSR, write_RTC_SR, tce, RTC_SR_TCE_MASK, RTC_SR_TIF_MASK, RTC_SR_TOF_MASK,
    not32, h16, h4]

/-- When the time-invalid or the overflow flag is set, `rtc_isr` runs the
clear sequence exactly once: on return the status word keeps only the alarm
flag and the seconds register is zero. -/
theorem rtc_isr_after_clear (s : Machine)
    (h : s.RTC_SR &&& RTC_SR_TIF_MASK ≠ 0 ∨ s.RTC_SR &&& RTC_SR_TOF_MASK ≠ 0) :
    (rtc_isr s).RTC_SR = s.RTC_SR &&& 0x04 ∧ (rtc_isr s).RTC_TSR = 0 := by
  have h2 : ¬ (s.RTC_SR &&& 4 &&& RTC_SR_TOF_MASK = 0x02) := by
    rw [and_and_of_disjoint _ (by decide)]; decide
  by_cases hT : s.RTC_SR &&& RTC_SR_TIF_MASK = 0x01
  · simp only [rtc_isr, hT, if_true, clear_sequence_eq, h2, if_false]
    split_ifs <;> simp [write_RTC_TAR, LED2_TOGGLE]
  · have hO : s.RTC_SR &&& RTC_SR_TOF_MASK = 0x02 :=
      (tof_set_iff _).1 (h.resolve_left (fun hne => hT ((tif_set_iff _).1 hne)))
    simp only [rtc_isr, hT, if_false, hO, if_true, clear_sequence_eq]
    split_ifs <;> simp [write_RTC_TAR, LED2_TOGGLE]

/-- The alarm flag survives whatever `rtc_isr` does for the other two flags,
so the alarm branch runs whenever the flag was set on entry. -/
theorem rtc_isr_alarm_branch (s : Machine) (h : s.RTC_SR &&& RTC_SR_TAF_MASK ≠ 0) :
    (rtc_isr s).m_bAlarmFlag = 1 ∧ (rtc_isr s).RTC_TAR = (s.RTC_TAR + 3) % 2 ^ 32 := by
  have hA : s.RTC_SR &&& RTC_SR_TAF_MASK = 0x04 := (taf_set_iff _).1 h
  have h2 : ¬ (s.RTC_SR &&& 4 &&& RTC_SR_TOF_MASK = 0x02) := by
    rw [and_and_of_disjoint _ (by decide)]; decide
  have h4 : s.RTC_SR &&& 4 &&& RTC_SR_TAF_MASK = 0x04 := by
    rw [and_and_of_subset _ (by decide)]; exact hA
  by_cases hT : s.RTC_SR &&& RTC_SR_TIF_MASK = 0x01
  · simp [rtc_isr, hT, clear_sequence_eq, h2, h4, write_RTC_TAR, LED2_TOGGLE]
  · by_cases hO : s.RTC_SR &&& RTC_SR_TOF_MASK = 0x02
    · simp [rtc_isr, hT, hO, clear_sequence_eq, h4, write_RTC_TAR, LED2_TOGGLE]
    · simp [rtc_isr, hT, hO, hA, write_RTC_TAR, LED2_TOGGLE]

/-! ## Lemmas on `rtc_second_isr` and `rtc_reset` -/

/-- What one call of `rtc_second_isr` emits. -/
theorem rtc_second_isr_emitted (s : Machine) :
    emittedBy rtc_second_isr s =
      [OutEv.out_char 0x08, OutEv.printf "Current Time:" [], OutEv.printf "  %d" [s.RTC_TSR],
       if s.m_bAlarmFlag ≠ 0 then OutEv.printf " *alarm!* " [] else OutEv.printf "          " [],
       OutEv.printf "\r" [], OutEv.LED1_TOGGLE] := by
  by_cases h : s.m_bAlarmFlag = 0 <;>
  simp [emittedBy, rtc_second_isr, out_char, printf, LED1_TOGGLE, h]

/-- The software flag is clear after every call of `rtc_second_isr`. -/
theorem rtc_second_isr_flag (s : Machine) : (rtc_second_isr s).m_bAlarmFlag = 0 := by
  by_cases h : s.m_bAlarmFlag = 0 <;>
  simp [rtc_second_isr, out_char, printf, LED1_TOGGLE, h]

/-! ## The claims -/

/-- C4: for every register state in which the time-invalid flag is set, one
call of `rtc_isr` leaves the flag clear and the seconds register zero. -/
theorem rtc_isr_clears_time_invalid (s : Machine) (h : s.RTC_SR &&& RTC_SR_TIF_MASK ≠ 0) :
    (rtc_isr s).RTC_SR &&& RTC_SR_TIF_MASK = 0 ∧ (rtc_isr s).RTC_TSR = 0 := by
  obtain ⟨hSR, hTSR⟩ := rtc_isr_after_clear s (Or.inl h)
  refine ⟨?_, hTSR⟩
  rw [hSR]
  exact and_and_of_disjoint _ (by decide)

/-- Witness for C4 on a running clock with the time-invalid flag up. -/
theorem rtc_isr_clears_time_invalid_witness :
    invalidTimeMachine.RTC_SR &&& RTC_SR_TIF_MASK ≠ 0 ∧
      (rtc_isr invalidTimeMachine).RTC_SR &&& RTC_SR_TIF_MASK = 0 ∧
      (rtc_isr invalidTimeMachine).RTC_TSR = 0 :=
  ⟨by decide, rtc_isr_clears_time_invalid invalidTimeMachine (by decide)⟩

/-- C5: for every register state in which the alarm flag is set, one call of
`rtc_isr` sets `m_bAlarmFlag` to 1 and leaves `RTC_TAR` at its previous value
plus 3 modulo `2 ^ 32`, whatever the other status flags are. -/
theorem rtc_isr_alarm_sets_flag_and_rearms (s : Machine)
    (h : s.RTC_SR &&& RTC_SR_TAF_MASK ≠ 0) :
    (rtc_isr s).m_bAlarmFlag = 1 ∧ (rtc_isr s).RTC_TAR = (s.RTC_TAR + 3) % 2 ^ 32 :=
  rtc_isr_alarm_branch s h

/-- Witness for C5: the alarm register wraps from `0xFFFFFFFE` to `1`. -/
theorem rtc_isr_alarm_sets_flag_and_rearms_witness :
    alarmFiredMachine.RTC_SR &&& RTC_SR_TAF_MASK ≠ 0 ∧
      (rtc_isr alarmFiredMachine).m_bAlarmFlag = 1 ∧
      (rtc_isr alarmFiredMachine).RTC_TAR = (0xFFFFFFFE + 3) % 2 ^ 32 :=
  ⟨by decide, rtc_isr_alarm_sets_flag_and_rearms alarmFiredMachine (by decide)⟩

/-- C6: `rtc_second_isr` emits the alarm marker exactly when `m_bAlarmFlag`
was set on entry and the padding exactly when it was clear; it always returns
with the flag clear; a second call right after the first emits the padding,
not the marker, and leaves the flag clear. -/
theorem rtc_second_isr_consumes_flag_once (s : Machine) :
    (OutEv.printf " *alarm!* " [] ∈ emittedBy rtc_second_isr s ↔ s.m_bAlarmFlag ≠ 0) ∧
    (OutEv.printf "          " [] ∈ emittedBy rtc_second_isr s ↔ s.m_bAlarmFlag = 0) ∧
    (rtc_second_isr s).m_bAlarmFlag = 0 ∧
    OutEv.printf "          " [] ∈ emittedBy rtc_second_isr (rtc_second_isr s) ∧
    OutEv.printf " *alarm!* " [] ∉ emittedBy rtc_second_isr (rtc_second_isr s) ∧
    (rtc_second_isr (rtc_second_isr s)).m_bAlarmFlag = 0 := by
  have h2 := rtc_second_isr_flag s
  refine ⟨?_, ?_, h2, ?_, ?_, rtc_second_isr_flag _⟩
  · rw [rtc_second_isr_emitted]
    by_cases h : s.m_bAlarmFlag = 0 <;> simp [h]
  · rw [rtc_second_isr_emitted]
    by_cases h : s.m_bAlarmFlag = 0 <;> simp [h]
  · rw [rtc_second_isr_emitted]
    simp [h2]
  · rw [rtc_second_isr_emitted]
    simp [h2]

/-- C7: for every starting state, after `rtc_reset` the counter-enable bit
reads as clear and the two interrupt lines of the peripheral (20 and 21) are
disabled. -/
theorem rtc_reset_leaves_peripheral_inactive (s : Machine) :
    (rtc_reset s).RTC_SR &&& RTC_SR_TCE_MASK = 0 ∧
      (rtc_reset s).irq_enabled 20 = false ∧ (rtc_reset s).irq_enabled 21 = false := by
  simp [rtc_reset, write_RTC_CR, software_reset, disable_irq, RTC_CR_SWR_MASK, not32,
    RTC_SR_TIF_MASK, RTC_SR_TCE_MASK]

/-- C10 (as the code has it): when `rtc_isr` handles an invalid-time or an
overflow condition it clears counter-enable and does not set it again: for
every state with the time-invalid or the overflow flag set, counter-enable is
clear on return. -/
theorem rtc_isr_leaves_counter_disabled (s : Machine)
    (h : s.RTC_SR &&& RTC_SR_TIF_MASK ≠ 0 ∨ s.RTC_SR &&& RTC_SR_TOF_MASK ≠ 0) :
    (rtc_isr s).RTC_SR &&& RTC_SR_TCE_MASK = 0 := by
  rw [(rtc_isr_after_clear s h).1]
  exact and_and_of_disjoint _ (by decide)

/-- Witness for the amended C10 on a running clock with the time-invalid flag up. -/
theorem rtc_isr_leaves_counter_disabled_witness :
    (invalidTimeMachine.RTC_SR &&& RTC_SR_TIF_MASK ≠ 0 ∨
        invalidTimeMachine.RTC_SR &&& RTC_SR_TOF_MASK ≠ 0) ∧
      (rtc_isr invalidTimeMachine).RTC_SR &&& RTC_SR_TCE_MASK = 0 :=
  ⟨by decide, rtc_isr_leaves_counter_disabled invalidTimeMachine (by decide)⟩

/-- Counterexample to C10 as stated: the time-invalid flag and counter-enable
are both set on entry, and counter-enable is not set when `rtc_isr` returns. -/
theorem rtc_isr_reenable_counterexample :
    (invalidTimeMachine.RTC_SR &&& RTC_SR_TIF_MASK ≠ 0 ∨
        invalidTimeMachine.RTC_SR &&& RTC_SR_TOF_MASK ≠ 0) ∧
      invalidTimeMachine.RTC_SR &&& RTC_SR_TCE_MASK ≠ 0 ∧
      ¬ ((rtc_isr invalidTimeMachine).RTC_SR &&& RTC_SR_TCE_MASK ≠ 0) := by
  decide

/-- C2 (as the code has it): for every alarm value greater than 0, the
sentinel `0xFFFFFFFF` included, after `rtc_init` the alarm register equals the
supplied value and the alarm-interrupt-enable bit is set. -/
theorem rtc_init_programs_positive_alarm (seconds alarm c_interval c_value interrupt : Nat)
    (s : Machine) (h0 : 0 < alarm) (h32 : alarm < 2 ^ 32) :
    (rtc_init seconds alarm c_interval c_value interrupt s).RTC_TAR = alarm ∧
      (rtc_init seconds alarm c_interval c_value interrupt s).RTC_IER &&& RTC_IER_TAIE_MASK ≠ 0 := by
  have hm : alarm % 2 ^ 32 = alarm := Nat.mod_eq_of_lt h32
  have hp : alarm % 2 ^ 32 > 0 := by rw [hm]; exact h0
  rw [rtc_init_RTC_TAR, rtc_init_TAIE, if_pos hp, if_pos hp, hm]
  exact ⟨rfl, by decide⟩

/-- Witness for the amended C2 at the sentinel value. -/
theorem rtc_init_programs_positive_alarm_witness :
    0 < 0xFFFFFFFF ∧ 0xFFFFFFFF < 2 ^ 32 ∧
      (rtc_init 0 0xFFFFFFFF 0 0 0 zeroMachine).RTC_TAR = 0xFFFFFFFF ∧
      (rtc_init 0 0xFFFFFFFF 0 0 0 zeroMachine).RTC_IER &&& RTC_IER_TAIE_MASK ≠ 0 :=
  ⟨by decide, by decide,
    rtc_init_programs_positive_alarm 0 0xFFFFFFFF 0 0 0 zeroMachine (by decide) (by decide)⟩

/-- Counterexample to C2 as stated: `alarm = 0` is not the sentinel, yet after
`rtc_init` the alarm-interrupt-enable bit is clear. -/
theorem rtc_init_alarm_zero_counterexample :
    (0 : Nat) ≠ 0xFFFFFFFF ∧
      ¬ ((rtc_init 1 0 0 0 0 zeroMachine).RTC_TAR = 0 ∧
          (rtc_init 1 0 0 0 0 zeroMachine).RTC_IER &&& RTC_IER_TAIE_MASK ≠ 0) := by
  decide

/-- C3 (as the code has it): alarm-interrupt-enable is clear after `rtc_init`
exactly when `alarm = 0`; with the sentinel `0xFFFFFFFF` the bit is set and the
alarm register holds `0xFFFFFFFF`. -/
theorem rtc_init_alarm_disabled_iff_zero (seconds alarm c_interval c_value interrupt : Nat)
    (s : Machine) (h32 : alarm < 2 ^ 32) :
    ((rtc_init seconds alarm c_interval c_value interrupt s).RTC_IER &&& RTC_IER_TAIE_MASK = 0
        ↔ alarm = 0) ∧
      (rtc_init seconds 0xFFFFFFFF c_interval c_value interrupt s).RTC_IER &&&
          RTC_IER_TAIE_MASK ≠ 0 ∧
      (rtc_init seconds 0xFFFFFFFF c_interval c_value interrupt s).RTC_TAR = 0xFFFFFFFF := by
  have hm : alarm % 2 ^ 32 = alarm := Nat.mod_eq_of_lt h32
  refine ⟨?_, ?_, ?_⟩
  · rw [rtc_init_TAIE, hm]
    by_cases h : alarm = 0
    · simp [h]
    · have hp : alarm > 0 := Nat.pos_of_ne_zero h
      simp [hp, h, RTC_IER_TAIE_MASK]
  · rw [rtc_init_TAIE]
    decide
  · rw [rtc_init_RTC_TAR]
    decide

/-- Witness for the amended C3 at `alarm = 0`. -/
theorem rtc_init_alarm_disabled_iff_zero_witness :
    (0 : Nat) < 2 ^ 32 ∧
      ((rtc_init 1 0 0 0 0 zeroMachine).RTC_IER &&& RTC_IER_TAIE_MASK = 0 ↔ (0 : Nat) = 0) ∧
      (rtc_init 1 0xFFFFFFFF 0 0 0 zeroMachine).RTC_IER &&& RTC_IER_TAIE_MASK ≠ 0 ∧
      (rtc_init 1 0xFFFFFFFF 0 0 0 zeroMachine).RTC_TAR = 0xFFFFFFFF :=
  ⟨by decide, rtc_init_alarm_disabled_iff_zero 1 0 0 0 0 zeroMachine (by decide)⟩

/-- Counterexample to C3 as stated: with the sentinel `0xFFFFFFFF` the
alarm-interrupt-enable bit is not clear after `rtc_init`. -/
theorem rtc_init_sentinel_counterexample :
    ¬ ((rtc_init 0 0xFFFFFFFF 0 0 0 zeroMachine).RTC_IER &&& RTC_IER_TAIE_MASK = 0) := by
  decide

/-- C9: `rtc_init` enables an interrupt line only for a line number greater
than 1.  For `interrupt ≤ 1` the lines `interrupt` and `interrupt + 1` are both
disabled on return; for `interrupt > 1` the line `interrupt + 1` is enabled on
return exactly when `seconds > 0` and the line `interrupt` exactly when
`alarm > 0`. -/
theorem rtc_init_interrupt_lines (seconds alarm c_interval c_value interrupt : Nat)
    (s : Machine) (hs : seconds < 2 ^ 32) (ha : alarm < 2 ^ 32) (hi : interrupt < 2 ^ 8) :
    (interrupt ≤ 1 →
        (rtc_init seconds alarm c_interval c_value interrupt s).irq_enabled interrupt = false ∧
        (rtc_init seconds alarm c_interval c_value interrupt s).irq_enabled (interrupt + 1)
          = false) ∧
    (1 < interrupt →
        ((rtc_init seconds alarm c_interval c_value interrupt s).irq_enabled (interrupt + 1)
          = true ↔ 0 < seconds) ∧
        ((rtc_init seconds alarm c_interval c_value interrupt s).irq_enabled interrupt
          = true ↔ 0 < alarm)) := by
  rw [rtc_init_irq_enabled, Nat.mod_eq_of_lt hs, Nat.mod_eq_of_lt ha, Nat.mod_eq_of_lt hi]
  constructor
  · intro h1
    have h1n : ¬ interrupt > 1 := Nat.not_lt.mpr h1
    simp [h1n, enable_irq, disable_irq]
  · intro h1
    have h1g : interrupt > 1 := h1
    by_cases h2 : seconds > 0 <;> by_cases h3 : alarm > 0 <;>
    simp [h1g, h2, h3, enable_irq, disable_irq]

/-- Witness for C9 with the RTC lines 20 (alarm) and 21 (seconds). -/
theorem rtc_init_interrupt_lines_witness :
    (5 : Nat) < 2 ^ 32 ∧ (0 : Nat) < 2 ^ 32 ∧ (20 : Nat) < 2 ^ 8 ∧
      (((rtc_init 5 0 0 0 20 alarmPendingMachine).irq_enabled (20 + 1) = true ↔ 0 < 5) ∧
       ((rtc_init 5 0 0 0 20 alarmPendingMachine).irq_enabled 20 = true ↔ 0 < 0)) :=
  ⟨by decide, by decide, by decide,
    (rtc_init_interrupt_lines 5 0 0 0 20 alarmPendingMachine (by decide) (by decide)
      (by decide)).2 (by decide)⟩

/-- C8 (what the code does): whenever `seconds > 0`, `rtc_init` writes the
seconds register with counter-enable already set; the alarm register, when
`alarm > 0`, is written with counter-enable set as well.  Only the
flag-clearing write of zero and the compensation write find the counter
disabled. -/
theorem rtc_init_writes_seconds_while_enabled
    (seconds alarm c_interval c_value interrupt : Nat) (s : Machine)
    (h0 : 0 < seconds) (h32 : seconds < 2 ^ 32) :
    (rtc_init seconds alarm c_interval c_value interrupt s).writes =
      s.writes ++
        ([⟨Reg.TSR, 0, false⟩,
          ⟨Reg.TCR, RTC_TCR_CIR (c_interval % 2 ^ 8) ||| RTC_TCR_TCR (c_value % 2 ^ 8), false⟩,
          ⟨Reg.TSR, seconds, true⟩] ++
         (if alarm % 2 ^ 32 > 0 then [⟨Reg.TAR, alarm % 2 ^ 32, true⟩] else [])) := by
  have hm : seconds % 2 ^ 32 = seconds := Nat.mod_eq_of_lt h32
  have hp : seconds % 2 ^ 32 > 0 := by rw [hm]; exact h0
  rw [rtc_init_writes, if_pos hp, hm]
  simp

/-- Witness for C8 at `rtc_init(1, 0, 0, 0, 0)`. -/
theorem rtc_init_writes_seconds_while_enabled_witness :
    (0 : Nat) < 1 ∧ (1 : Nat) < 2 ^ 32 ∧
      (rtc_init 1 0 0 0 0 zeroMachine).writes =
        zeroMachine.writes ++
          ([⟨Reg.TSR, 0, false⟩,
            ⟨Reg.TCR, RTC_TCR_CIR (0 % 2 ^ 8) ||| RTC_TCR_TCR (0 % 2 ^ 8), false⟩,
            ⟨Reg.TSR, 1, true⟩] ++
           (if 0 % 2 ^ 32 > 0 then [⟨Reg.TAR, 0 % 2 ^ 32, true⟩] else [])) :=
  ⟨by decide, by decide,
    rtc_init_writes_seconds_while_enabled 1 0 0 0 0 zeroMachine (by decide) (by decide)⟩

/-- C1 (what the code does): for every call with `seconds > 0`,
counter-enable is set on return, but the seconds register holds its reset
value 0 and not the supplied value: the write of `seconds` is issued after
counter-enable has been set, when the register cannot be written. -/
theorem rtc_init_seconds_not_stored (seconds alarm c_interval c_value interrupt : Nat)
    (s : Machine) (h0 : 0 < seconds) (h32 : seconds < 2 ^ 32) :
    (rtc_init seconds alarm c_interval c_value interrupt s).RTC_SR &&& RTC_SR_TCE_MASK ≠ 0 ∧
      (rtc_init seconds alarm c_interval c_value interrupt s).RTC_TSR = 0 ∧
      (rtc_init seconds alarm c_interval c_value interrupt s).RTC_TSR ≠ seconds ∧
      ⟨Reg.TSR, seconds, true⟩ ∈
        (rtc_init seconds alarm c_interval c_value interrupt s).writes := by
  have hm : seconds % 2 ^ 32 = seconds := Nat.mod_eq_of_lt h32
  have hp : seconds % 2 ^ 32 > 0 := by rw [hm]; exact h0
  refine ⟨?_, rtc_init_RTC_TSR _ _ _ _ _ _, ?_, ?_⟩
  · rw [rtc_init_RTC_SR]; decide
  · rw [rtc_init_RTC_TSR]; exact Nat.ne_of_lt h0
  · rw [rtc_init_writes, if_pos hp, hm]
    simp

/-- Witness for C1 at `rtc_init(1, 0, 0, 0, 0)`. -/
theorem rtc_init_seconds_not_stored_witness :
    (0 : Nat) < 1 ∧ (1 : Nat) < 2 ^ 32 ∧
      (rtc_init 1 0 0 0 0 zeroMachine).RTC_SR &&& RTC_SR_TCE_MASK ≠ 0 ∧
      (rtc_init 1 0 0 0 0 zeroMachine).RTC_TSR = 0 ∧
      (rtc_init 1 0 0 0 0 zeroMachine).RTC_TSR ≠ 1 ∧
      ⟨Reg.TSR, 1, true⟩ ∈ (rtc_init 1 0 0 0 0 zeroMachine).writes :=
  ⟨by decide, by decide,
    rtc_init_seconds_not_stored 1 0 0 0 0 zeroMachine (by decide) (by decide)⟩

end KL03
